import Mathlib

/-!
Verification of the DuoFern protocol engine (ioBroker.duofern).

This file shallowly embeds the protocol layer (protocol.ts), the status
parser (parser.ts), the stick frame handler / queue / init handshake
(stick.ts) and the adapter's device registrar (main.ts) as executable Lean
definitions, and proves the specified properties about them.

Strings are modelled as Lean `String` (a list of characters); the JS string
operations used by the source (substring, replace-first-occurrence,
toUpperCase, padStart/padEnd, parseInt base 16) are reimplemented with JS
semantics on the character list.
-/

set_option maxRecDepth 100000

namespace Duofern

/-- JS regex class [0-9A-Fa-f]: is this character a hexadecimal digit? -/
def isHexDigit (c : Char) : Bool :=
  (('0' ≤ c && c ≤ '9') || ('A' ≤ c && c ≤ 'F')) || ('a' ≤ c && c ≤ 'f')

/-- Numeric value of a hexadecimal digit character. -/
def hexDigitVal (c : Char) : Nat :=
  if '0' ≤ c && c ≤ '9' then c.toNat - 48
  else if 'A' ≤ c && c ≤ 'F' then c.toNat - 55
  else c.toNat - 87

/-- Accumulate the longest prefix of hexadecimal digits (JS parseInt keeps
parsing until the first invalid character). -/
def parseHexAux : List Char → Nat → Nat
  | [], acc => acc
  | c :: rest, acc =>
    if isHexDigit c then parseHexAux rest (16 * acc + hexDigitVal c) else acc

/-- JS `parseInt(s, 16)` on the strings the parser feeds it (plain hex
windows, no sign / whitespace / 0x prefix occurs there): `none` models NaN
(empty string or no leading hex digit). -/
def jsParseHex (s : String) : Option Nat :=
  match s.data with
  | [] => none
  | c :: _ => if isHexDigit c then some (parseHexAux s.data 0) else none

/-- JS `String.prototype.substring(a, b)`: clamps both indices to the
string length and swaps them when out of order. -/
def jsSubstring (s : String) (a b : Nat) : String :=
  let n := s.data.length
  let a1 := if a ≤ n then a else n
  let b1 := if b ≤ n then b else n
  let lo := if a1 ≤ b1 then a1 else b1
  let hi := if a1 ≤ b1 then b1 else a1
  ⟨(s.data.drop lo).take (hi - lo)⟩

/-- JS `String.prototype.toUpperCase` on the ASCII strings of the protocol. -/
def jsToUpper (s : String) : String :=
  ⟨s.data.map Char.toUpper⟩

/-- JS `String.prototype.padStart(n, c)`. -/
def jsPadStart (s : String) (n : Nat) (c : Char) : String :=
  ⟨List.replicate (n - s.data.length) c ++ s.data⟩

/-- JS `String.prototype.padEnd(n, c)`. -/
def jsPadEnd (s : String) (n : Nat) (c : Char) : String :=
  ⟨s.data ++ List.replicate (n - s.data.length) c⟩

/-- Hex digit list of a natural number, as produced by JS
`Number.toString(16)` for nonnegative integers (lowercase letters, no
leading zeros). `Nat.toDigits 16` has exactly these semantics. -/
def natHexDigits (n : Nat) : List Char :=
  Nat.toDigits 16 n

/-- JS `n.toString(16).padStart(2, '0').toUpperCase()` — the one-byte hex
encoding used for the SetPairs counter and numeric template substitutions. -/
def natToHexUpperByte (n : Nat) : String :=
  jsToUpper (jsPadStart ⟨natHexDigits n⟩ 2 '0')

/-- Split a character list at the first occurrence of `pat`: returns the
part strictly before the match and the part strictly after it. -/
def splitAtMatch (pat : List Char) : List Char → Option (List Char × List Char)
  | [] => if pat.isPrefixOf ([] : List Char) then some ([], []) else none
  | c :: rest =>
    if pat.isPrefixOf (c :: rest) then some ([], (c :: rest).drop pat.length)
    else
      match splitAtMatch pat rest with
      | none => none
      | some (p, suf) => some (c :: p, suf)

/-- JS `s.replace(pat, repl)` with a string pattern: replaces the first
occurrence only; returns `s` unchanged when the pattern does not occur.
(The replacement strings of this protocol are plain hex, so the JS `$`
substitution patterns never arise.) -/
def jsReplaceFirst (s pat repl : String) : String :=
  match splitAtMatch pat.data s.data with
  | none => s
  | some (p, suf) => ⟨p ++ repl.data ++ suf⟩

/-! ## Protocol constants (protocol.ts, `Protocol` object) -/

def duoInit1 : String := "01000000000000000000000000000000000000000000"

def duoInit2 : String := "0E000000000000000000000000000000000000000000"

def duoSetDongle : String := "0Azzzzzz000100000000000000000000000000000000"

def duoInit3 : String := "14140000000000000000000000000000000000000000"

def duoSetPairs : String := "03nnyyyyyy0000000000000000000000000000000000"

def duoInitEnd : String := "10010000000000000000000000000000000000000000"

def duoACK : String := "81000000000000000000000000000000000000000000"

def duoStatusRequest : String := "0DFF0F400000000000000000000000000000FFFFFF01"

def duoStartPair : String := "04000000000000000000000000000000000000000000"

def duoStartUnpair : String := "07000000000000000000000000000000000000000000"

/-- Regex `^81.{42}$` on a frame (frames are hex strings, so `.` never
meets a line terminator): length 44 and leading "81". -/
def ackPattern (f : String) : Bool :=
  f.data.length == 44 && f.data.take 2 == ['8', '1']

/-- Regex `^0602.{40}$`. -/
def pairPaired (f : String) : Bool :=
  f.data.length == 44 && f.data.take 4 == ['0', '6', '0', '2']

/-- Regex `^0603.{40}$`. -/
def pairUnpaired (f : String) : Bool :=
  f.data.length == 44 && f.data.take 4 == ['0', '6', '0', '3']

/-! ## Command templates (protocol.ts, `Commands` object; the ones the
claims exercise) -/

def cmdUp : String := "07010000"

def cmdPosition : String := "070700nn"

def cmdStatusRequest : String := "0F400000"

/-! ## Frame builders (protocol.ts) -/

/-- Regex test `^[0-9A-F]{6}$/i` used by `buildSetDongle`. -/
def hex6Test (s : String) : Bool :=
  s.data.length == 6 && s.data.all isHexDigit

/-- `buildSetDongle(serial)`: throws unless the serial is exactly 6 hex
digits; the thrown Error is modelled as `Except.error`. -/
def buildSetDongle (serial : String) : Except String String :=
  if hex6Test serial then
    .ok (jsReplaceFirst duoSetDongle "zzzzzz" (jsToUpper serial))
  else
    .error "Invalid dongle serial. Must be 6 hex digits."

/-- Successful result of a fallible construction, `none` when it threw. -/
def exceptOk : Except String String → Option String
  | .ok v => some v
  | .error _ => none

/-- `buildSetPairs(counter, deviceCode)`. -/
def buildSetPairs (counter : Nat) (deviceCode : String) : String :=
  jsReplaceFirst
    (jsReplaceFirst duoSetPairs "nn" (natToHexUpperByte counter))
    "yyyyyy" (jsToUpper deviceCode)

/-- A replacement value in `buildCommand`'s `replacements` record: a string
or a (nonnegative, as used by the callers) number. -/
inductive ReplVal where
  | str (s : String)
  | num (n : Nat)
  deriving DecidableEq

/-- Hex rendering of a replacement value as in `buildCommand`'s loop. -/
def replToHex : ReplVal → String
  | .str s => jsToUpper s
  | .num n => natToHexUpperByte n

/-- The placeholder-substitution loop of `buildCommand` (Object.entries
iterates in insertion order, modelled by the list order). -/
def applyRepls (template : String) (repls : List (String × ReplVal)) : String :=
  repls.foldl (fun cmd kv => jsReplaceFirst cmd kv.1 (replToHex kv.2)) template

/-- The `options` parameter of `buildCommand`. -/
structure CmdOptions where
  deviceCode : Option String := none
  stickCode : Option String := none
  channel : Option String := none
  suffix : Option String := none

/-- JS truthiness filter on an optional string: `undefined` and the empty
string are falsy. -/
def jsTruthy (o : Option String) : Option String :=
  match o with
  | some s => if s == "" then none else some s
  | none => none

/-- JS `a || b` on optional strings. -/
def jsOr (a b : Option String) : Option String :=
  match jsTruthy a with
  | some s => some s
  | none => b

/-- String value of `replacements[k]` (only string entries are read by the
`as string | undefined` casts in the source). -/
def lookupStr (repls : List (String × ReplVal)) (k : String) : Option String :=
  match repls.find? (fun kv => kv.1 == k) with
  | some (_, .str s) => some s
  | _ => none

/-- The 18-hex-char padding of a device-addressed frame. -/
def paddingStr : String := "000000000000000000"

/-- `buildCommand(template, replacements, options)` from protocol.ts. -/
def buildCommand (template : String) (repls : List (String × ReplVal))
    (opts : CmdOptions) : String :=
  let cmd0 := applyRepls template repls
  let cmd := if cmd0.data.length < 8 then jsPadEnd cmd0 8 '0' else cmd0
  let commandBody := jsSubstring cmd 0 8
  let deviceCode := jsOr opts.deviceCode (lookupStr repls "yyyyyy")
  let stickCode := jsOr opts.stickCode (lookupStr repls "zzzzzz")
  match jsTruthy deviceCode with
  | some dev =>
    let channel :=
      jsToUpper (match jsTruthy opts.channel with | some c => c | none => "01")
    let suffix :=
      jsToUpper (match jsTruthy opts.suffix with | some c => c | none => "00")
    let stick :=
      match jsTruthy stickCode with
      | some sc => jsToUpper sc
      | none => "000000"
    "0D" ++ channel ++ commandBody ++ paddingStr ++ stick ++ jsToUpper dev ++ suffix
  | none => cmd

/-- `buildStatusRequest(deviceCode)`: channel FF, no stick code, suffix 01. -/
def buildStatusRequest (deviceCode : String) : String :=
  buildCommand cmdStatusRequest []
    { deviceCode := some (jsToUpper deviceCode)
      channel := some "FF"
      suffix := some "01" }

/-- `buildBroadcastStatusRequest()`. -/
def buildBroadcastStatusRequest : String :=
  buildStatusRequest "FFFFFF"

end Duofern

namespace Duofern

/-! ## Status parser (parser.ts) -/

/-- A JS value appearing in the parse result or in a value-mapping array:
a string, a number, or `undefined`. Inverted fields can go below zero, so
numbers are integers. -/
inductive JSVal where
  | s (v : String)
  | n (v : Int)
  | undefined
  deriving DecidableEq

/-- Per-channel bit-extraction rule of a status id. -/
structure ChanDef where
  position : Nat
  fromBit : Nat
  toBit : Nat

/-- A `statusIds` entry: field name, optional value map, optional invert
base, channel table. -/
structure StatusIdDef where
  name : String
  map : Option String := none
  invert : Option Nat := none
  chan : List (String × ChanDef)

/-- `statusGroups`: frame-format byte to ordered status-id list. -/
def statusGroups : List (String × List Nat) :=
  [ ("21", [100, 101, 102, 104, 105, 106, 111, 112, 113, 114, 50])
  , ("22", [1, 2, 3, 4, 5, 6, 7, 8, 9, 10])
  , ("23", [102, 107, 109, 115, 116, 117, 118, 119, 120, 121, 122, 123, 124,
            125, 126, 127, 128, 129, 130, 131, 132, 133, 134, 135, 136, 140, 141, 50])
  , ("23a", [102, 107, 109, 115, 116, 117, 118, 119, 120, 121, 122, 123, 124,
             125, 126, 127, 133, 140, 141, 50])
  , ("24", [102, 107, 115, 116, 117, 118, 119, 120, 121, 122, 123, 124, 125,
            126, 127, 140, 141, 400, 402, 50])
  , ("24a", [102, 107, 115, 123, 124, 400, 402, 404, 405, 406, 407, 408, 409, 410, 411, 50]) ]

/-- `statusMapping`: value-map name to array of values. -/
def statusMapping : List (String × List JSVal) :=
  [ ("onOff", [.s "off", .s "on"])
  , ("upDown", [.s "up", .s "down"])
  , ("moving", [.s "stop", .s "stop"])
  , ("motor", [.s "off", .s "short(160ms)", .s "long(480ms)", .s "individual"])
  , ("closeT", [.s "off", .s "30", .s "60", .s "90", .s "120", .s "150",
                .s "180", .s "210", .s "240"])
  , ("openS", [.s "error", .s "11", .s "15", .s "19"])
  , ("scale10", [.n 10, .n 0])
  , ("scaleF1", [.n 2, .n 80])
  , ("scaleF2", [.n 10, .n 400])
  , ("scaleF3", [.n 2, .n (-8)])
  , ("scaleF4", [.n 100, .n 0])
  , ("hex", [.n 1, .n 0]) ]

/-- `statusIds`: status id to extraction definition (channel "01" is the
one the parser uses; id 50 also carries a "02" entry in the source). -/
def statusIds : List (Nat × StatusIdDef) :=
  [ (50, { name := "moving", map := some "moving",
           chan := [("01", ⟨0, 0, 0⟩), ("02", ⟨0, 0, 0⟩)] })
  , (100, { name := "sunAutomatic", map := some "onOff", chan := [("01", ⟨0, 2, 2⟩)] })
  , (101, { name := "timeAutomatic", map := some "onOff", chan := [("01", ⟨0, 0, 0⟩)] })
  , (102, { name := "position", invert := some 100, chan := [("01", ⟨7, 0, 6⟩)] })
  , (104, { name := "duskAutomatic", map := some "onOff", chan := [("01", ⟨0, 3, 3⟩)] })
  , (105, { name := "dawnAutomatic", map := some "onOff", chan := [("01", ⟨1, 3, 3⟩)] })
  , (106, { name := "manualMode", map := some "onOff", chan := [("01", ⟨0, 7, 7⟩)] })
  , (107, { name := "manualMode", map := some "onOff", chan := [("01", ⟨3, 5, 5⟩)] })
  , (109, { name := "runningTime", chan := [("01", ⟨6, 0, 7⟩)] })
  , (111, { name := "sunPosition", invert := some 100, chan := [("01", ⟨6, 0, 6⟩)] })
  , (112, { name := "ventilatingPosition", invert := some 100, chan := [("01", ⟨2, 0, 6⟩)] })
  , (113, { name := "ventilatingMode", map := some "onOff", chan := [("01", ⟨2, 7, 7⟩)] })
  , (114, { name := "sunMode", map := some "onOff", chan := [("01", ⟨6, 7, 7⟩)] })
  , (115, { name := "timeAutomatic", map := some "onOff", chan := [("01", ⟨3, 0, 0⟩)] })
  , (116, { name := "sunAutomatic", map := some "onOff", chan := [("01", ⟨3, 2, 2⟩)] })
  , (117, { name := "dawnAutomatic", map := some "onOff", chan := [("01", ⟨2, 1, 1⟩)] })
  , (118, { name := "duskAutomatic", map := some "onOff", chan := [("01", ⟨3, 1, 1⟩)] })
  , (119, { name := "rainAutomatic", map := some "onOff", chan := [("01", ⟨3, 7, 7⟩)] })
  , (120, { name := "windAutomatic", map := some "onOff", chan := [("01", ⟨3, 6, 6⟩)] })
  , (121, { name := "sunPosition", invert := some 100, chan := [("01", ⟨5, 0, 6⟩)] })
  , (122, { name := "sunMode", map := some "onOff", chan := [("01", ⟨3, 4, 4⟩)] })
  , (123, { name := "ventilatingPosition", invert := some 100, chan := [("01", ⟨4, 0, 6⟩)] })
  , (124, { name := "ventilatingMode", map := some "onOff", chan := [("01", ⟨4, 7, 7⟩)] })
  , (125, { name := "reversal", map := some "onOff", chan := [("01", ⟨7, 7, 7⟩)] })
  , (126, { name := "rainDirection", map := some "upDown", chan := [("01", ⟨2, 3, 3⟩)] })
  , (127, { name := "windDirection", map := some "upDown", chan := [("01", ⟨2, 2, 2⟩)] })
  , (128, { name := "slatRunTime", chan := [("01", ⟨0, 0, 5⟩)] })
  , (129, { name := "tiltAfterMoveLevel", map := some "onOff", chan := [("01", ⟨0, 6, 6⟩)] })
  , (130, { name := "tiltInVentPos", map := some "onOff", chan := [("01", ⟨0, 7, 7⟩)] })
  , (131, { name := "defaultSlatPos", chan := [("01", ⟨1, 0, 6⟩)] })
  , (132, { name := "tiltAfterStopDown", map := some "onOff", chan := [("01", ⟨1, 7, 7⟩)] })
  , (133, { name := "motorDeadTime", map := some "motor", chan := [("01", ⟨2, 4, 5⟩)] })
  , (134, { name := "tiltInSunPos", map := some "onOff", chan := [("01", ⟨5, 7, 7⟩)] })
  , (135, { name := "slatPosition", chan := [("01", ⟨9, 0, 6⟩)] })
  , (136, { name := "blindsMode", map := some "onOff", chan := [("01", ⟨9, 7, 7⟩)] })
  , (140, { name := "windMode", map := some "onOff", chan := [("01", ⟨3, 3, 3⟩)] })
  , (141, { name := "rainMode", map := some "onOff", chan := [("01", ⟨2, 0, 0⟩)] })
  , (400, { name := "obstacle", chan := [("01", ⟨2, 4, 4⟩)] })
  , (402, { name := "block", chan := [("01", ⟨2, 6, 6⟩)] })
  , (404, { name := "lightCurtain", chan := [("01", ⟨0, 7, 7⟩)] })
  , (405, { name := "automaticClosing", map := some "closeT", chan := [("01", ⟨1, 0, 3⟩)] })
  , (406, { name := "openSpeed", map := some "openS", chan := [("01", ⟨1, 4, 6⟩)] })
  , (407, { name := "2000cycleAlarm", map := some "onOff", chan := [("01", ⟨1, 7, 7⟩)] })
  , (408, { name := "wicketDoor", map := some "onOff", chan := [("01", ⟨5, 7, 7⟩)] })
  , (409, { name := "backJump", map := some "onOff", chan := [("01", ⟨9, 0, 0⟩)] })
  , (410, { name := "10minuteAlarm", map := some "onOff", chan := [("01", ⟨9, 1, 1⟩)] })
  , (411, { name := "light", map := some "onOff", chan := [("01", ⟨9, 2, 2⟩)] }) ]

/-- Association lookup keyed by string. -/
def lookupByStr {α : Type} (l : List (String × α)) (k : String) : Option α :=
  match l.find? (fun kv => kv.1 == k) with
  | some kv => some kv.2
  | none => none

/-- Association lookup keyed by number. -/
def lookupByNat {α : Type} (l : List (Nat × α)) (k : Nat) : Option α :=
  match l.find? (fun kv => kv.1 == k) with
  | some kv => some kv.2
  | none => none

/-- JS array indexing `m[v]` for an integer index: `undefined` below zero
or past the end. -/
def jsIndex (m : List JSVal) (v : Int) : JSVal :=
  if h : 0 ≤ v ∧ v.toNat < m.length then m.get ⟨v.toNat, h.2⟩ else .undefined

/-- Does the map name start with "scale"? (JS `String.prototype.startsWith`.) -/
def startsWithScale (m : String) : Bool :=
  ['s', 'c', 'a', 'l', 'e'].isPrefixOf m.data

/-- One iteration of the parser loop: compute the (name, value) assignment
of a status id on a frame, or `none` when the loop does `continue` or
assigns nothing (scale/hex maps are declared but not implemented). -/
def parseField (frame : String) (id : Nat) : Option (String × JSVal) :=
  match lookupByNat statusIds id with
  | none => none
  | some d =>
    match lookupByStr d.chan "01" with
    | none => none
    | some cd =>
      let len := cd.toBit - cd.fromBit + 1
      let startIndex := 6 + cd.position * 2
      let hexVal := jsSubstring frame startIndex (startIndex + 4)
      -- JS: `parseInt` may give NaN; `(NaN >> f) & mask` is 0, which
      -- `.getD 0` reproduces.
      let raw : Nat := ((jsParseHex hexVal).getD 0 >>> cd.fromBit) &&& (2 ^ len - 1)
      let value : Int :=
        match d.invert with
        | some i => (i : Int) - raw
        | none => raw
      match d.map with
      | some mname =>
        match lookupByStr statusMapping mname with
        | some arr =>
          if startsWithScale mname then none
          else if mname == "hex" then none
          else
            -- both array-map branches assign to result[def.name]
            some (d.name, if value < (arr.length : Int) then jsIndex arr value else .n value)
        | none => some (d.name, .n value)
      | none => some (d.name, .n value)

/-- `parseStatus(frame)`: the ordered list of `result[name] = value`
assignments the source performs (a JS object records the last assignment
per key). -/
def parseStatus (frame : String) : List (String × JSVal) :=
  let format := jsSubstring frame 6 8
  match lookupByStr statusGroups format with
  | none => []
  | some ids => ids.foldl (fun result id =>
      match parseField frame id with
      | none => result
      | some kv => result ++ [kv]) []

/-- Read a field out of the assignment list: the last assignment to that
key wins, as in a JS object. -/
def getField (r : List (String × JSVal)) (k : String) : Option JSVal :=
  match r.reverse.find? (fun kv => kv.1 == k) with
  | some kv => some kv.2
  | none => none

end Duofern

namespace Duofern

/-! ## Stick frame handler (stick.ts, `handleFrame`, normal operation) -/

/-- An observable action of the stick: a log line, an emitted event, or a
raw write to the serial transport. `ackAdvanceQueue` abstracts the
clear-timeout-and-process-queue step of the ACK branch (the queue itself
is modelled separately below). -/
inductive FrameAction where
  | logDebug (m : String)
  | logInfo (m : String)
  | logWarn (m : String)
  | emitFrame (f : String)
  | writeTransport (f : String)
  | emitPaired (f : String)
  | emitUnpaired (f : String)
  | emitMessage (f : String)
  | ackAdvanceQueue
  deriving DecidableEq

/-- `frame === Protocol.duoACK || Protocol.ackPattern.test(frame)`. -/
def isAckFrame (f : String) : Bool :=
  f == duoACK || ackPattern f

/-- The action trace of `handleFrame(frame)` outside the handshake
(`initResponseCallback === null`), in execution order. -/
def handleFrameActions (frame : String) : List FrameAction :=
  [.logDebug ("RX: " ++ frame), .emitFrame frame] ++
  (if isAckFrame frame then
    [.logDebug "Received ACK", .ackAdvanceQueue]
  else
    [.logDebug "Received message, sending ACK", .writeTransport duoACK] ++
    (if pairPaired frame then [.emitPaired frame]
     else if pairUnpaired frame then [.emitUnpaired frame]
     else [.emitMessage frame]))

/-- Is an action a higher-level dispatch to downstream handlers? -/
def isDispatch : FrameAction → Bool
  | .emitPaired _ => true
  | .emitUnpaired _ => true
  | .emitMessage _ => true
  | _ => false

/-! ## Outbound queue (stick.ts, `processQueue` / ACK / timeout) -/

/-- The 5-second ACK timer constant of `processQueue` (milliseconds). -/
def queueTimeoutMs : Nat := 5000

/-- Queue-relevant stick state: the pending queue, the
`isProcessingQueue` flag, and the armed ACK timer (`queueTimeout`) holding
the command it guards. -/
structure QState where
  queue : List String
  isProcessingQueue : Bool
  inFlight : Option String
  deriving DecidableEq

/-- Observable actions of the queue machinery. -/
inductive QAction where
  | send (f : String)
  | warnTimeout (f : String)
  | queueEmpty
  deriving DecidableEq

/-- `processQueue()`: if the queue is empty, clear the processing flag;
otherwise shift the head, write it raw, and arm the 5 s ACK timer on it. -/
def processQueue (s : QState) : QState × List QAction :=
  match s.queue with
  | [] => ({ s with isProcessingQueue := false }, [.queueEmpty])
  | cmd :: rest =>
    ({ queue := rest, isProcessingQueue := true, inFlight := some cmd },
     [.send cmd])

/-- Queue events after initialization: an ACK frame arrives, or the 5 s
timer fires. -/
inductive QEvent where
  | ackArrives
  | timerFires
  deriving DecidableEq

/-- One queue event as `handleFrame`'s ACK branch / the `setTimeout`
callback process it. A timer can only fire while armed; firing warns about
the un-ACKed command and moves on to the next head without re-enqueueing. -/
def queueStep (s : QState) : QEvent → QState × List QAction
  | .ackArrives => processQueue { s with inFlight := none }
  | .timerFires =>
    match s.inFlight with
    | some cmd =>
      let r := processQueue { s with inFlight := none }
      (r.1, .warnTimeout cmd :: r.2)
    | none => (s, [])

/-- Run the queue machine over a list of events, accumulating actions. -/
def queueRun (s : QState) : List QEvent → QState × List QAction
  | [] => (s, [])
  | e :: es =>
    let r := queueStep s e
    let r2 := queueRun r.1 es
    (r2.1, r.2 ++ r2.2)

/-- The frames actually written by a queue action trace. -/
def sentFrames (as : List QAction) : List String :=
  as.filterMap (fun a => match a with | .send f => some f | _ => none)

/-! ## Initialization handshake (stick.ts, `startInit` / `sendInitCommand`) -/

/-- The 3-second per-step timeout of `sendInitCommand` (milliseconds). -/
def initStepTimeoutMs : Nat := 3000

/-- The SetPairs loop of `startInit`: one step per known device, with the
counter starting at 0 and incremented after each device; every step is
followed by a raw ACK. -/
def pairSteps (devices : List String) (counter : Nat) : List (String × Bool) :=
  match devices with
  | [] => []
  | d :: rest => (buildSetPairs counter d, true) :: pairSteps rest (counter + 1)

/-- The handshake steps from SetDongle on: each entry is the frame written
for the step and whether a raw ACK is written after its response. -/
def initStepsAfterInit2 (dongleFrame : String) (devices : List String) :
    List (String × Bool) :=
  [(dongleFrame, true), (duoInit3, true)] ++
  pairSteps devices 0 ++
  [(duoInitEnd, true), (duoStatusRequest, true)]

/-- Run handshake steps against a response oracle: `resp k = true` when
some inbound frame (content not inspected) arrives within the 3 s window
of step `k`. Each step writes its frame immediately; on a response the raw
ACK follows (for ACK-steps) and the next step starts; on timeout the run
aborts with an error and nothing further is written. -/
def runInitAux (resp : Nat → Bool) : List (String × Bool) → Nat → List String × Bool
  | [], _ => ([], true)
  | (f, ack) :: rest, k =>
    if resp k then
      let r := runInitAux resp rest (k + 1)
      (f :: (if ack then duoACK :: r.1 else r.1), r.2)
    else ([f], false)

/-- `startInit()`: INIT1 (step 0) and INIT2 (step 1) are sent without a
trailing ACK; then `buildSetDongle` may throw (caught as an init error);
then the remaining steps run. Returns the ordered list of frames written
to the transport and whether initialization completed (`initialized` set,
versus the catch-branch error event). -/
def runInit (dongle : String) (devices : List String) (resp : Nat → Bool) :
    List String × Bool :=
  if resp 0 = false then ([duoInit1], false)
  else if resp 1 = false then ([duoInit1, duoInit2], false)
  else
    match buildSetDongle dongle with
    | .error _ => ([duoInit1, duoInit2], false)
    | .ok df =>
      let r := runInitAux resp (initStepsAfterInit2 df devices) 2
      ([duoInit1, duoInit2] ++ r.1, r.2)

/-! ## Reopen (stick.ts, `reopen`) -/

/-- The stick state touched by `reopen()`. -/
structure StickState where
  initialized : Bool
  buffer : String
  queue : List String
  isProcessingQueue : Bool
  knownDevices : List String
  deriving DecidableEq

/-- `reopen()` as written in stick.ts: close, reset `initialized`,
`buffer`, `queue` and `isProcessingQueue`, then open again (which
re-triggers `startInit`). The method takes NO parameter, so `knownDevices`
is left untouched and the only log emitted before the reset is the info
line; the queued commands are dropped silently. -/
def reopenStick (s : StickState) : StickState × List FrameAction :=
  ({ initialized := false
     buffer := ""
     queue := []
     isProcessingQueue := false
     knownDevices := s.knownDevices },
   [.logInfo "Reopening connection to DuoFern stick..."])

/-! ## Device registrar (main.ts, `handleMessage` /
`scheduleDeviceRegistration` / `processPendingRegistrations`) -/

/-- Registrar state: the registered set, the pending-registration set
(insertion-ordered, as JS `Set` iteration is), and whether the 2 s
debounce timer is armed. -/
structure RegState where
  registered : List String
  pending : List String
  timerArmed : Bool
  deriving DecidableEq

/-- Observable registrar action: the `stick.reopen(devices)` call issued
by `processPendingRegistrations`. -/
inductive RegAction where
  | reopenWith (devices : List String)
  deriving DecidableEq

/-- JS `Set.prototype.add`: append if not already present. -/
def setAdd (l : List String) (x : String) : List String :=
  if l.contains x then l else l ++ [x]

/-- `handleMessage(frame)` as far as registration goes: for a status frame
(leading "0FFF0F") extract the device code at hex chars 30..35, uppercase
it, and schedule registration unless it is already registered or already
pending. Scheduling adds to `pending` and (re)starts the debounce timer. -/
def observeStatus (s : RegState) (frame : String) : RegState :=
  if frame.data.take 6 == ['0', 'F', 'F', 'F', '0', 'F'] then
    let code := jsToUpper (jsSubstring frame 30 36)
    if s.registered.contains code || s.pending.contains code then s
    else { s with pending := setAdd s.pending code, timerArmed := true }
  else s

/-- The debounce timer fires: `processPendingRegistrations` on the success
path moves every pending code into the registered set, clears `pending`,
and calls `stick.reopen` with the full registered list. An unarmed timer
cannot fire; an empty pending set returns without a reopen. -/
def fireTimer (s : RegState) : RegState × List RegAction :=
  if s.timerArmed = false then (s, [])
  else if s.pending.isEmpty then ({ s with timerArmed := false }, [])
  else
    let newRegistered := s.pending.foldl setAdd s.registered
    ({ registered := newRegistered, pending := [], timerArmed := false },
     [.reopenWith newRegistered])

end Duofern

namespace Duofern

/-! # Helper lemmas -/

theorem data_append (a b : String) : (a ++ b).data = a.data ++ b.data := rfl

theorem data_mk (l : List Char) : (String.mk l).data = l := rfl

theorem string_eq_of_data {a b : String} (h : a.data = b.data) : a = b := by
  cases a; cases b; exact congrArg String.mk h

/-- A frame matching the pair-event regex is not classified as an ACK. -/
theorem pairPaired_not_ack {f : String} (h : pairPaired f = true) :
    isAckFrame f = false := by
  unfold pairPaired at h
  simp only [Bool.and_eq_true, beq_iff_eq] at h
  obtain ⟨hlen, htake⟩ := h
  have h2 : f.data.take 2 = ['0', '6'] := by
    have h3 := congrArg (List.take 2) htake
    simpa [List.take_take] using h3
  have hne : (f == duoACK) = false := by
    apply beq_eq_false_iff_ne.mpr
    intro hEq
    rw [hEq] at h2
    exact absurd h2 (by decide)
  have hap : ackPattern f = false := by
    unfold ackPattern
    simp [h2]
  simp [isAckFrame, hne, hap]

/-- A frame matching the unpair-event regex is not classified as an ACK. -/
theorem pairUnpaired_not_ack {f : String} (h : pairUnpaired f = true) :
    isAckFrame f = false := by
  unfold pairUnpaired at h
  simp only [Bool.and_eq_true, beq_iff_eq] at h
  obtain ⟨hlen, htake⟩ := h
  have h2 : f.data.take 2 = ['0', '6'] := by
    have h3 := congrArg (List.take 2) htake
    simpa [List.take_take] using h3
  have hne : (f == duoACK) = false := by
    apply beq_eq_false_iff_ne.mpr
    intro hEq
    rw [hEq] at h2
    exact absurd h2 (by decide)
  have hap : ackPattern f = false := by
    unfold ackPattern
    simp [h2]
  simp [isAckFrame, hne, hap]

/-- A frame matching the unpair-event regex does not match the pair-event
regex. -/
theorem pairUnpaired_not_paired {f : String} (h : pairUnpaired f = true) :
    pairPaired f = false := by
  unfold pairUnpaired at h
  simp only [Bool.and_eq_true, beq_iff_eq] at h
  obtain ⟨hlen, htake⟩ := h
  unfold pairPaired
  simp [htake]

/-! # Claim theorems -/

/-- The 44-hex-char status frame of format 21 whose payload is all zeros. -/
def format21ZeroFrame : String := "0FFF0F21000000000000000000000000000000000000"

/-- C8: parsing the status frame `0FFF0F21` followed by 36 zero hex chars
yields position = 100 (invert of raw 0), every onOff-mapped field of
format 21 (sunAutomatic, timeAutomatic, duskAutomatic, dawnAutomatic,
manualMode, ventilatingMode, sunMode) = "off", and moving = "stop". -/
theorem C8_format21_zero_frame :
    getField (parseStatus format21ZeroFrame) ("position") = some (.n 100) ∧
    getField (parseStatus format21ZeroFrame) ("sunAutomatic") = some (.s "off") ∧
    getField (parseStatus format21ZeroFrame) ("timeAutomatic") = some (.s "off") ∧
    getField (parseStatus format21ZeroFrame) ("duskAutomatic") = some (.s "off") ∧
    getField (parseStatus format21ZeroFrame) ("dawnAutomatic") = some (.s "off") ∧
    getField (parseStatus format21ZeroFrame) ("manualMode") = some (.s "off") ∧
    getField (parseStatus format21ZeroFrame) ("ventilatingMode") = some (.s "off") ∧
    getField (parseStatus format21ZeroFrame) ("sunMode") = some (.s "off") ∧
    getField (parseStatus format21ZeroFrame) ("moving") = some (.s "stop") := by
  decide

/-- Is the action a warn-level log line? -/
def isWarnLog : FrameAction → Bool
  | .logWarn _ => true
  | _ => false

/-- A stick state as `processPendingRegistrations` would find it: one old
known device, commands still queued. -/
def c1StickState : StickState :=
  { initialized := true
    buffer := "AB"
    queue := ["0D01070100000000000000000000006F123449ABCD00"]
    isProcessingQueue := true
    knownDevices := ["AAAAAA"] }

/-- C1: `reopen` in stick.ts accepts no pair-list parameter, so when the
registrar calls it with the new list ["112233", "445566"] the stick's
`knownDevices` stays ["AAAAAA"] and the re-run handshake enumerates the
old list, and the queued outbound frames are discarded with only an
info-level log — no warn-level log is emitted, contradicting the claim
(and the repository's own stick.test.ts, which asserts both behaviours). -/
theorem C1_reopen_ignores_new_pairs :
    (reopenStick c1StickState).1.knownDevices = ["AAAAAA"] ∧
    (["AAAAAA"] : List String) ≠ ["112233", "445566"] ∧
    (reopenStick c1StickState).1.queue = [] ∧
    (reopenStick c1StickState).1.initialized = false ∧
    (reopenStick c1StickState).1.buffer = "" ∧
    (reopenStick c1StickState).2 =
      [.logInfo "Reopening connection to DuoFern stick..."] ∧
    ∀ a ∈ (reopenStick c1StickState).2, isWarnLog a = false := by
  decide

/-- A pair-event frame: `0602` followed by 40 hex chars. -/
def c2PairFrame : String := "06020000000000000000000000000000000000000000"

/-- An unpair-event frame: `0603` followed by 40 hex chars. -/
def c2UnpairFrame : String := "06030000000000000000000000000000000000000000"

/-- C2 counterexample: on a frame matching the pair-event pattern the
stick DOES write the constant auto-ACK frame to the transport (before
emitting the Paired event), so the claim that it never does is false. -/
theorem C2_counterexample_pair_frame_acked :
    pairPaired c2PairFrame = true ∧
    FrameAction.writeTransport duoACK ∈ handleFrameActions c2PairFrame ∧
    FrameAction.emitPaired c2PairFrame ∈ handleFrameActions c2PairFrame := by
  decide

/-- C2 (amended): for every inbound frame outside the handshake matching
the pair-event pattern (^0602 + 40) or the unpair-event pattern
(^0603 + 40), the stick emits Paired/Unpaired — and it DOES write the
constant auto-ACK frame to the transport, immediately before emitting the
event. -/
theorem C2_pair_events_acked_before_emit (f : String) :
    (pairPaired f = true →
      handleFrameActions f =
        [.logDebug ("RX: " ++ f), .emitFrame f,
         .logDebug "Received message, sending ACK",
         .writeTransport duoACK, .emitPaired f]) ∧
    (pairUnpaired f = true →
      handleFrameActions f =
        [.logDebug ("RX: " ++ f), .emitFrame f,
         .logDebug "Received message, sending ACK",
         .writeTransport duoACK, .emitUnpaired f]) := by
  constructor
  · intro h
    unfold handleFrameActions
    rw [pairPaired_not_ack h]
    simp [h]
  · intro h
    unfold handleFrameActions
    rw [pairUnpaired_not_ack h]
    simp [pairUnpaired_not_paired h, h]

/-- Witness for C2's amended theorem at the concrete pair frame. -/
theorem C2_pair_events_acked_before_emit_witness :
    handleFrameActions c2PairFrame =
      [.logDebug ("RX: " ++ c2PairFrame), .emitFrame c2PairFrame,
       .logDebug "Received message, sending ACK",
       .writeTransport duoACK, .emitPaired c2PairFrame] :=
  (C2_pair_events_acked_before_emit c2PairFrame).1 (by decide)

/-- C3: for every inbound frame outside the handshake that is not
classified as an ACK, the constant ACK frame is written to the transport
strictly before the dispatch event (Message for ordinary frames) reaches
downstream handlers: the action trace is exactly the ACK write followed
by the single dispatch. -/
theorem C3_ack_written_before_dispatch (f : String)
    (h : isAckFrame f = false) :
    ∃ ev,
      handleFrameActions f =
        [.logDebug ("RX: " ++ f), .emitFrame f,
         .logDebug "Received message, sending ACK",
         .writeTransport duoACK, ev] ∧
      isDispatch ev = true ∧
      (pairPaired f = false → pairUnpaired f = false → ev = .emitMessage f) := by
  unfold handleFrameActions
  rw [h]
  by_cases hp : pairPaired f = true
  · exact ⟨.emitPaired f, by simp [hp], rfl, fun hc _ => by rw [hp] at hc; cases hc⟩
  · have hp2 : pairPaired f = false := by simpa using hp
    by_cases hu : pairUnpaired f = true
    · exact ⟨.emitUnpaired f, by simp [hp2, hu], rfl,
        fun _ hc => by rw [hu] at hc; cases hc⟩
    · have hu2 : pairUnpaired f = false := by simpa using hu
      exact ⟨.emitMessage f, by simp [hp2, hu2], rfl, fun _ _ => rfl⟩

/-- Witness for C3 at the concrete zero status frame. -/
theorem C3_ack_written_before_dispatch_witness :
    ∃ ev,
      handleFrameActions format21ZeroFrame =
        [.logDebug ("RX: " ++ format21ZeroFrame), .emitFrame format21ZeroFrame,
         .logDebug "Received message, sending ACK",
         .writeTransport duoACK, ev] ∧
      isDispatch ev = true ∧
      (pairPaired format21ZeroFrame = false → pairUnpaired format21ZeroFrame = false →
        ev = .emitMessage format21ZeroFrame) :=
  C3_ack_written_before_dispatch format21ZeroFrame (by decide)

/-- The dongle-id regex of the claim (`^6F[0-9A-Fa-f]{4}$`), written from
the spec's words for comparison with the code's actual check. -/
def specDongleIdRegex (s : String) : Bool :=
  s.data.length == 6 &&
  (s.data.take 2 == ['6', 'F'] && (s.data.drop 2).all isHexDigit)

/-- C6 counterexample: "5F1234" does not match the claim's dongle regex
`^6F[0-9A-Fa-f]{4}$`, yet `buildSetDongle` succeeds on it (the code only
checks `^[0-9A-F]{6}$/i`); and `buildCommand` succeeds on the non-hex
device code "ZZZZZZ" — construction never validates device codes. -/
theorem C6_counterexample_validation :
    specDongleIdRegex ("5F1234") = false ∧
    exceptOk (buildSetDongle ("5F1234")) =
      some ("0A5F1234000100000000000000000000000000000000") ∧
    hex6Test ("ZZZZZZ") = false ∧
    buildCommand cmdUp []
      { deviceCode := some ("ZZZZZZ"), stickCode := some ("6F1234") } =
      "0D01070100000000000000000000006F1234ZZZZZZ00" := by
  decide

/-- C6 (amended): frame construction validates only that the dongle
serial is exactly 6 hex digits (`^[0-9A-F]{6}$/i`) — the `^6F` prefix is
enforced by the adapter's config validation, not at construction — and on
success splices the uppercased serial into the SetDongle template;
`buildCommand` performs no device-code validation at all (it is total,
and the C6 counterexample shows it accepting a non-hex code). -/
theorem C6_construction_validation (s : String) :
    buildSetDongle s =
      if hex6Test s then
        .ok ("0A" ++ jsToUpper s ++ "000100000000000000000000000000000000")
      else
        .error "Invalid dongle serial. Must be 6 hex digits." := by
  unfold buildSetDongle
  by_cases h : hex6Test s = true
  · rw [if_pos h, if_pos h]
    have hsplit : splitAtMatch ("zzzzzz".data) duoSetDongle.data =
        some (['0', 'A'], ("000100000000000000000000000000000000").data) := by
      decide
    unfold jsReplaceFirst
    rw [hsplit]
    rfl
  · simp only [if_neg h]

end Duofern

namespace Duofern

/-- Splitting sent frames over concatenated action traces. -/
theorem sentFrames_append (a b : List QAction) :
    sentFrames (a ++ b) = sentFrames a ++ sentFrames b := by
  simp [sentFrames, List.filterMap_append]

/-- Each queue event sends a prefix of the queue and drops exactly what it
sent. -/
theorem queueStep_shape (s : QState) (e : QEvent) :
    ∃ j, sentFrames (queueStep s e).2 = s.queue.take j ∧
      (queueStep s e).1.queue = s.queue.drop j := by
  cases e with
  | ackArrives =>
    cases hq : s.queue with
    | nil => exact ⟨0, by simp [queueStep, processQueue, hq, sentFrames]⟩
    | cons c rest => exact ⟨1, by simp [queueStep, processQueue, hq, sentFrames]⟩
  | timerFires =>
    cases hf : s.inFlight with
    | none => exact ⟨0, by simp [queueStep, hf, sentFrames]⟩
    | some cmd =>
      cases hq : s.queue with
      | nil => exact ⟨0, by simp [queueStep, processQueue, hq, hf, sentFrames]⟩
      | cons c rest => exact ⟨1, by simp [queueStep, processQueue, hq, hf, sentFrames]⟩

/-- Over any event sequence, the frames written are an order-preserving
prefix of the queued frames: nothing is ever retransmitted. -/
theorem queueRun_sends_prefix (evts : List QEvent) :
    ∀ s : QState, ∃ k, sentFrames (queueRun s evts).2 = s.queue.take k := by
  induction evts with
  | nil => intro s; exact ⟨0, by simp [queueRun, sentFrames]⟩
  | cons e es ih =>
    intro s
    obtain ⟨j, hsend, hqueue⟩ := queueStep_shape s e
    obtain ⟨k, hk⟩ := ih (queueStep s e).1
    refine ⟨j + k, ?_⟩
    show sentFrames ((queueStep s e).2 ++ (queueRun (queueStep s e).1 es).2) =
      s.queue.take (j + k)
    rw [sentFrames_append, hsend, hk, hqueue, List.take_add]

/-- C7: after initialization each queued frame is sent with the 5-second
ACK timer armed on it; when the timer expires the stick logs a warning
identifying the un-ACKed frame and sends the next queued frame; over any
sequence of ACKs and timeouts the sent frames are a prefix of the queue
in order — a timed-out frame is never retransmitted. -/
theorem C7_queue_ack_timeout :
    queueTimeoutMs = 5000 ∧
    (∀ (s : QState) (cmd : String) (rest : List String), s.queue = cmd :: rest →
      processQueue s =
        ({ queue := rest, isProcessingQueue := true, inFlight := some cmd },
         [.send cmd])) ∧
    (∀ (s : QState) (cmd f : String) (rest : List String),
      s.inFlight = some cmd → s.queue = f :: rest →
      queueStep s .timerFires =
        ({ queue := rest, isProcessingQueue := true, inFlight := some f },
         [.warnTimeout cmd, .send f])) ∧
    (∀ (s : QState) (cmd : String), s.inFlight = some cmd → s.queue = [] →
      queueStep s .timerFires =
        ({ queue := [], isProcessingQueue := false, inFlight := none },
         [.warnTimeout cmd, .queueEmpty])) ∧
    (∀ (s : QState) (evts : List QEvent),
      ∃ k, sentFrames (queueRun s evts).2 = s.queue.take k) := by
  refine ⟨rfl, ?_, ?_, ?_, fun s evts => queueRun_sends_prefix evts s⟩
  · intro s cmd rest hq
    simp [processQueue, hq]
  · intro s cmd f rest hf hq
    simp [queueStep, processQueue, hf, hq]
  · intro s cmd hf hq
    simp [queueStep, processQueue, hf, hq]

/-- Witness for C7: a timeout on an in-flight frame warns about it and
sends the next queued frame, never the timed-out one again. -/
theorem C7_queue_ack_timeout_witness :
    queueTimeoutMs = 5000 ∧
    queueStep ⟨["AA11", "BB22"], true, some ("CC33")⟩ .timerFires =
      ({ queue := ["BB22"], isProcessingQueue := true, inFlight := some ("AA11") },
       [.warnTimeout ("CC33"), .send ("AA11")]) :=
  ⟨C7_queue_ack_timeout.1,
   C7_queue_ack_timeout.2.2.1 ⟨["AA11", "BB22"], true, some ("CC33")⟩
     "CC33" "AA11" ["BB22"] rfl rfl⟩

/-- C9: the registrar never adds a code that is registered or pending:
observing a status frame for such a code leaves the state unchanged;
observing the same unknown code any number of times equals observing it
once (it enters `pending` exactly once); the burst's single armed debounce
timer produces exactly one reopen, and a further fire produces none. -/
theorem C9_registrar_idempotent (s : RegState) (frame code : String)
    (hstat : frame.data.take 6 = ['0', 'F', 'F', 'F', '0', 'F'])
    (hcode : jsToUpper (jsSubstring frame 30 36) = code)
    (hreg : s.registered.contains code = false)
    (hpend : s.pending.contains code = false) :
    observeStatus s frame =
      { s with pending := s.pending ++ [code], timerArmed := true } ∧
    (∀ (s3 : RegState) (f3 : String),
      (s3.registered.contains (jsToUpper (jsSubstring f3 30 36)) = true ∨
       s3.pending.contains (jsToUpper (jsSubstring f3 30 36)) = true) →
      observeStatus s3 f3 = s3) ∧
    (∀ (s2 : RegState) (f2 : String),
      observeStatus (observeStatus s2 f2) f2 = observeStatus s2 f2) ∧
    (∀ n : Nat, 1 ≤ n →
      (fun st => observeStatus st frame)^[n] s = observeStatus s frame) ∧
    fireTimer (observeStatus s frame) =
      ({ registered := (s.pending ++ [code]).foldl setAdd s.registered,
         pending := [], timerArmed := false },
       [.reopenWith ((s.pending ++ [code]).foldl setAdd s.registered)]) ∧
    (fireTimer (fireTimer (observeStatus s frame)).1).2 = [] := by
  have hregm : code ∉ s.registered := by simpa using hreg
  have hpendm : code ∉ s.pending := by simpa using hpend
  have hobs : observeStatus s frame =
      { s with pending := s.pending ++ [code], timerArmed := true } := by
    simp [observeStatus, hstat, hcode, setAdd, hregm, hpendm]
  have hskip : ∀ (s3 : RegState) (f3 : String),
      (s3.registered.contains (jsToUpper (jsSubstring f3 30 36)) = true ∨
       s3.pending.contains (jsToUpper (jsSubstring f3 30 36)) = true) →
      observeStatus s3 f3 = s3 := by
    intro s3 f3 hin
    have hin2 : jsToUpper (jsSubstring f3 30 36) ∈ s3.registered ∨
        jsToUpper (jsSubstring f3 30 36) ∈ s3.pending := by
      rcases hin with h | h
      · exact Or.inl (by simpa using h)
      · exact Or.inr (by simpa using h)
    by_cases hs : f3.data.take 6 = ['0', 'F', 'F', 'F', '0', 'F']
    · simp [observeStatus, hs, hin2]
    · simp [observeStatus, hs]
  have hidem : ∀ (s2 : RegState) (f2 : String),
      observeStatus (observeStatus s2 f2) f2 = observeStatus s2 f2 := by
    intro s2 f2
    by_cases hs : f2.data.take 6 = ['0', 'F', 'F', 'F', '0', 'F']
    · by_cases hmem : jsToUpper (jsSubstring f2 30 36) ∈ s2.registered ∨
        jsToUpper (jsSubstring f2 30 36) ∈ s2.pending
      · have h1 : observeStatus s2 f2 = s2 := by
          simp [observeStatus, hs, hmem]
        rw [h1, h1]
      · have hr := (not_or.mp hmem).1
        have hp := (not_or.mp hmem).2
        have h1 : observeStatus s2 f2 =
            { s2 with
              pending := s2.pending ++ [jsToUpper (jsSubstring f2 30 36)],
              timerArmed := true } := by
          simp [observeStatus, hs, setAdd, hr, hp]
        rw [h1]
        have hmem2 : jsToUpper (jsSubstring f2 30 36) ∈
            s2.pending ++ [jsToUpper (jsSubstring f2 30 36)] := by simp
        simp [observeStatus, hs, hmem2]
    · simp [observeStatus, hs]
  refine ⟨hobs, hskip, hidem, ?_, ?_, ?_⟩
  · intro n hn
    induction n with
    | zero => omega
    | succ m ihm =>
      rcases Nat.lt_or_ge 1 (m + 1) with hgt | hle
      · have hm : 1 ≤ m := by omega
        rw [Function.iterate_succ_apply', ihm hm, hidem]
      · have hm0 : m = 0 := by omega
        subst hm0
        simp
  · rw [hobs]
    simp [fireTimer]
  · rw [hobs]
    simp [fireTimer]

/-- Witness for C9 at a concrete state and status frame (device code
"000000", registered set ["AAAAAA"]). -/
theorem C9_registrar_idempotent_witness :
    observeStatus ⟨["AAAAAA"], [], false⟩ format21ZeroFrame =
      { registered := ["AAAAAA"], pending := ["000000"], timerArmed := true } :=
  (C9_registrar_idempotent ⟨["AAAAAA"], [], false⟩ format21ZeroFrame "000000"
    (by decide) (by decide) (by decide) (by decide)).1

end Duofern

namespace Duofern

/-- One-byte hex encodings of counters below 256: exactly two characters,
none of them 'y' (they are uppercase hex digits). -/
theorem natToHexUpperByte_facts :
    ∀ i, i < 256 → (natToHexUpperByte i).data.length = 2 ∧
      (natToHexUpperByte i).data.all (fun c => !(c == 'y')) = true := by
  decide

/-- Stepping `splitAtMatch` over a non-matching head character when the
pattern starts with 'y'. -/
theorem splitAtMatch_step (ptail : List Char) (x : Char) (s : List Char)
    (hx : ¬(x = 'y')) :
    splitAtMatch ('y' :: ptail) (x :: s) =
      (splitAtMatch ('y' :: ptail) s).map (fun pr => (x :: pr.1, pr.2)) := by
  have hyx : ('y' == x) = false := beq_eq_false_iff_ne.mpr (fun h => hx h.symm)
  have hpre : ('y' :: ptail).isPrefixOf (x :: s) = false := by
    simp [List.isPrefixOf, hyx]
  simp only [splitAtMatch, hpre]
  cases h : splitAtMatch ('y' :: ptail) s with
  | none => simp
  | some pr => cases pr with | mk p suf => simp

/-- The SetPairs frame of a sub-256 counter and an uppercase device code
has the claimed layout: `03`, one counter byte, the device code, zeros. -/
theorem buildSetPairs_shape (i : Nat) (d : String) (hi : i < 256)
    (hd : jsToUpper d = d) :
    buildSetPairs i d =
      "03" ++ natToHexUpperByte i ++ d ++ "0000000000000000000000000000000000" := by
  obtain ⟨hlen, hall⟩ := natToHexUpperByte_facts i hi
  obtain ⟨n0, n1, hdata⟩ := List.length_eq_two.mp hlen
  rw [hdata] at hall
  simp only [List.all_cons, List.all_nil, Bool.and_true, Bool.and_eq_true,
    Bool.not_eq_true', beq_eq_false_iff_ne, ne_eq] at hall
  have hy0 : ¬(n0 = 'y') := hall.1
  have hy1 : ¬(n1 = 'y') := hall.2
  have hsplit1 : splitAtMatch (("nn").data) (duoSetPairs.data) =
      some (['0', '3'], ("yyyyyy0000000000000000000000000000000000").data) := by
    decide
  have hr1 : jsReplaceFirst duoSetPairs ("nn") (natToHexUpperByte i) =
      ⟨['0', '3'] ++ (natToHexUpperByte i).data ++
        ("yyyyyy0000000000000000000000000000000000").data⟩ := by
    unfold jsReplaceFirst
    rw [hsplit1]
  have hyd : ("yyyyyy").data = 'y' :: ['y', 'y', 'y', 'y', 'y'] := by decide
  have hsplit2 : splitAtMatch (("yyyyyy").data)
      (['0', '3'] ++ (natToHexUpperByte i).data ++
        ("yyyyyy0000000000000000000000000000000000").data) =
      some (['0', '3', n0, n1], ("0000000000000000000000000000000000").data) := by
    rw [hdata, hyd]
    simp only [List.cons_append, List.nil_append]
    rw [splitAtMatch_step _ _ _ (by decide)]
    rw [splitAtMatch_step _ _ _ (by decide)]
    rw [splitAtMatch_step _ _ _ hy0]
    rw [splitAtMatch_step _ _ _ hy1]
    have hfin : splitAtMatch ('y' :: ['y', 'y', 'y', 'y', 'y'])
        (("yyyyyy0000000000000000000000000000000000").data) =
        some ([], ("0000000000000000000000000000000000").data) := by
      decide
    rw [hfin]
    simp
  have hfinal : buildSetPairs i d =
      ⟨['0', '3', n0, n1] ++ (jsToUpper d).data ++
        ("0000000000000000000000000000000000").data⟩ := by
    unfold buildSetPairs
    rw [hr1]
    unfold jsReplaceFirst
    simp only [data_mk]
    rw [hsplit2]
  rw [hfinal]
  apply string_eq_of_data
  have h03 : ("03").data = ['0', '3'] := by decide
  simp [data_append, data_mk, h03, hdata, hd]

/-- The SetPairs frames the claim expects: counter rendered as one hex
byte, 0-based, in list order, each frame followed by a raw ACK. -/
def specSetPairsFrames (devices : List String) (counter : Nat) : List String :=
  match devices with
  | [] => []
  | d :: rest =>
    ("03" ++ natToHexUpperByte counter ++ d ++
      "0000000000000000000000000000000000") ::
    duoACK :: specSetPairsFrames rest (counter + 1)

/-- When every step gets a response, `runInitAux` emits each step's frame,
each ACK-step followed by the raw ACK, and succeeds. -/
theorem runInitAux_all_resp (resp : Nat → Bool) (hresp : ∀ k, resp k = true) :
    ∀ (steps : List (String × Bool)) (k : Nat),
      runInitAux resp steps k =
        (steps.foldr (fun p acc => p.1 :: (if p.2 then duoACK :: acc else acc))
          [], true) := by
  intro steps
  induction steps with
  | nil => intro k; rfl
  | cons p rest ih =>
    intro k
    simp [runInitAux, hresp k, ih (k + 1)]

/-- Unrolling the successful SetPairs portion of the handshake. -/
theorem pairSteps_foldr (tail : List String) :
    ∀ (devices : List String) (c : Nat), c + devices.length ≤ 256 →
      (∀ d ∈ devices, jsToUpper d = d) →
      (pairSteps devices c).foldr
        (fun p acc => p.1 :: (if p.2 then duoACK :: acc else acc)) tail =
      specSetPairsFrames devices c ++ tail := by
  intro devices
  induction devices with
  | nil => intro c hc hd; simp [pairSteps, specSetPairsFrames]
  | cons d rest ih =>
    intro c hc hd
    have hdu : jsToUpper d = d := hd d (by simp)
    have hshape := buildSetPairs_shape c d (by simp at hc; omega) hdu
    simp only [pairSteps, List.foldr_cons, specSetPairsFrames, if_pos]
    rw [hshape, ih (c + 1) (by simp at hc; omega) (fun x hx => hd x (by simp [hx]))]
    simp

/-- Length of the SetPairs step list. -/
theorem pairSteps_length (devices : List String) :
    ∀ c, (pairSteps devices c).length = devices.length := by
  induction devices with
  | nil => intro c; rfl
  | cons d rest ih => intro c; simp [pairSteps, ih (c + 1)]

/-- A step that times out (with all earlier steps answered) makes the
handshake run fail. -/
theorem runInitAux_abort (resp : Nat → Bool) :
    ∀ (steps : List (String × Bool)) (k j : Nat), j < steps.length →
      resp (k + j) = false → (∀ m, m < j → resp (k + m) = true) →
      (runInitAux resp steps k).2 = false := by
  intro steps
  induction steps with
  | nil =>
    intro k j hj
    simp at hj
  | cons p rest ih =>
    intro k j hj hfail hbefore
    by_cases h0 : j = 0
    · subst h0
      simp only [Nat.add_zero] at hfail
      simp [runInitAux, hfail]
    · have hk : resp k = true := by
        have hb := hbefore 0 (by omega)
        simpa using hb
      simp only [runInitAux, hk, if_pos]
      apply ih (k + 1) (j - 1) (by simp at hj; omega)
      · have harith : k + 1 + (j - 1) = k + j := by omega
        rw [harith]
        exact hfail
      · intro m hm
        have hb := hbefore (m + 1) (by omega)
        have harith : k + 1 + m = k + (m + 1) := by omega
        rw [harith]
        exact hb

/-- C4: with every step answered in time, initialization writes exactly
Init1, Init2, SetDongle + ACK, Init3 + ACK, one SetPairs(counter, device)
frame + ACK per PairSet entry (counter one hex byte, 0-based, in order),
InitEnd + ACK, and the broadcast StatusRequest + ACK, in that order, and
completes; the per-step timeout is the 3-second constant, and a step
timing out (all earlier steps answered) aborts the handshake with an
error. -/
theorem C4_init_sequence (dongle : String) (devices : List String)
    (resp : Nat → Bool)
    (hdong : hex6Test dongle = true)
    (hdongU : jsToUpper dongle = dongle)
    (hdevs : ∀ d ∈ devices, jsToUpper d = d)
    (hcount : devices.length ≤ 256)
    (hresp : ∀ k, resp k = true) :
    initStepTimeoutMs = 3000 ∧
    (∀ i, i < devices.length → (natToHexUpperByte i).data.length = 2) ∧
    runInit dongle devices resp =
      ([duoInit1, duoInit2,
        "0A" ++ dongle ++ "000100000000000000000000000000000000", duoACK,
        duoInit3, duoACK] ++
       specSetPairsFrames devices 0 ++
       [duoInitEnd, duoACK, duoStatusRequest, duoACK], true) ∧
    (∀ (resp2 : Nat → Bool) (j : Nat), j < 6 + devices.length →
      (∀ m, m < j → resp2 m = true) → resp2 j = false →
      (runInit dongle devices resp2).2 = false) := by
  have hdf : buildSetDongle dongle =
      .ok ("0A" ++ dongle ++ "000100000000000000000000000000000000") := by
    have h := C6_construction_validation dongle
    rw [h, if_pos hdong, hdongU]
  refine ⟨rfl, ?_, ?_, ?_⟩
  · intro i hi
    exact (natToHexUpperByte_facts i (by omega)).1
  · unfold runInit
    rw [hresp 0, hresp 1]
    simp only [Bool.true_eq_false, if_neg, ite_false]
    rw [hdf]
    dsimp only
    rw [runInitAux_all_resp resp hresp]
    unfold initStepsAfterInit2
    rw [List.foldr_append, List.foldr_append]
    rw [pairSteps_foldr _ devices 0 (by omega) hdevs]
    simp
  · intro resp2 j hj hbefore hfail
    unfold runInit
    by_cases h0 : j = 0
    · subst h0
      rw [hfail]
      simp
    · have h0t : resp2 0 = true := hbefore 0 (by omega)
      by_cases h1 : j = 1
      · subst h1
        rw [h0t, hfail]
        simp
      · have h1t : resp2 1 = true := hbefore 1 (by omega)
        rw [h0t, h1t]
        simp only [Bool.true_eq_false, if_neg, ite_false]
        rw [hdf]
        dsimp only
        have hsteps : (initStepsAfterInit2
            ("0A" ++ dongle ++ "000100000000000000000000000000000000")
            devices).length = 4 + devices.length := by
          unfold initStepsAfterInit2
          simp [pairSteps_length]
          omega
        have habort := runInitAux_abort resp2
          (initStepsAfterInit2
            ("0A" ++ dongle ++ "000100000000000000000000000000000000") devices)
          2 (j - 2) (by rw [hsteps]; omega)
          (by have harith : 2 + (j - 2) = j := by omega
              rw [harith]; exact hfail)
          (fun m hm => hbefore (2 + m) (by omega))
        simpa using habort

/-- Witness for C4 at dongle "6F1234" and PairSet ["AABBCC", "DDEEFF"]
with every step answered. -/
theorem C4_init_sequence_witness :
    runInit ("6F1234") [("AABBCC"), ("DDEEFF")] (fun _ => true) =
      ([duoInit1, duoInit2,
        "0A" ++ "6F1234" ++ "000100000000000000000000000000000000", duoACK,
        duoInit3, duoACK] ++
       specSetPairsFrames [("AABBCC"), ("DDEEFF")] 0 ++
       [duoInitEnd, duoACK, duoStatusRequest, duoACK], true) :=
  (C4_init_sequence ("6F1234") [("AABBCC"), ("DDEEFF")] (fun _ => true)
    (by decide) (by decide) (by decide) (by decide) (fun k => rfl)).2.2.1

end Duofern

namespace Duofern

/-- Slicing a string built by concatenation: the substring covering
exactly the middle part returns it. -/
theorem jsSubstring_of_append (s : String) (pre mid post : List Char)
    (a b : Nat) (h : s.data = pre ++ (mid ++ post))
    (ha : a = pre.length) (hb : b = a + mid.length) :
    jsSubstring s a b = ⟨mid⟩ := by
  have hn : s.data.length = pre.length + (mid.length + post.length) := by
    rw [h]
    simp
  have han : a ≤ s.data.length := by omega
  have hbn : b ≤ s.data.length := by omega
  have hab : a ≤ b := by omega
  simp only [jsSubstring]
  rw [if_pos han, if_pos hbn, if_pos hab, if_pos hab]
  apply string_eq_of_data
  rw [data_mk, data_mk, h]
  subst ha
  subst hb
  have hba : pre.length + mid.length - pre.length = mid.length := by omega
  rw [hba, List.drop_left, List.take_left]

/-- The command body always has 8 hex chars: pad-then-truncate. -/
theorem commandBody_length (c : String) :
    (jsSubstring (if c.data.length < 8 then jsPadEnd c 8 '0' else c) 0 8).data.length
      = 8 := by
  have h8 : 8 ≤ (if c.data.length < 8 then jsPadEnd c 8 '0' else c).data.length := by
    by_cases h : c.data.length < 8
    · rw [if_pos h]
      simp only [jsPadEnd, data_mk, List.length_append, List.length_replicate]
      omega
    · rw [if_neg h]
      omega
  simp only [jsSubstring, data_mk]
  rw [if_pos (Nat.zero_le _), if_pos h8, if_pos (by omega : (0 : Nat) ≤ 8),
    if_pos (by omega : (0 : Nat) ≤ 8)]
  simp only [Nat.sub_zero, List.drop_zero, List.length_take]
  omega

/-- C5: every device-addressed frame built with channel `ch`, optional
stick code, device code `dev` and suffix `sfx` is 44 hex chars starting
`0D`, with `ch` at hex chars 2..3, eighteen zeros at 12..29, the stick
code (or `000000` when none is given) at 30..35, `dev` at 36..41 and
`sfx` at 42..43; in particular the up command for stick 6F1234 and device
49ABCD is exactly 0D01070100000000000000000000006F123449ABCD00. -/
theorem C5_command_frame_layout (template : String)
    (repls : List (String × ReplVal)) (dev ch sfx stickRes : String)
    (stick : Option String)
    (hdev6 : dev.data.length = 6) (hdevU : jsToUpper dev = dev)
    (hch2 : ch.data.length = 2) (hchU : jsToUpper ch = ch)
    (hsfx2 : sfx.data.length = 2) (hsfxU : jsToUpper sfx = sfx)
    (hstick : (stick = none ∧ lookupStr repls ("zzzzzz") = none ∧
        stickRes = "000000") ∨
      (stick = some stickRes ∧ stickRes.data.length = 6 ∧
        jsToUpper stickRes = stickRes)) :
    (buildCommand template repls
        { deviceCode := some dev, stickCode := stick,
          channel := some ch, suffix := some sfx }).data.length = 44 ∧
    jsSubstring (buildCommand template repls
      { deviceCode := some dev, stickCode := stick,
        channel := some ch, suffix := some sfx }) 0 2 = "0D" ∧
    jsSubstring (buildCommand template repls
      { deviceCode := some dev, stickCode := stick,
        channel := some ch, suffix := some sfx }) 2 4 = ch ∧
    jsSubstring (buildCommand template repls
      { deviceCode := some dev, stickCode := stick,
        channel := some ch, suffix := some sfx }) 12 30 = paddingStr ∧
    jsSubstring (buildCommand template repls
      { deviceCode := some dev, stickCode := stick,
        channel := some ch, suffix := some sfx }) 30 36 = stickRes ∧
    jsSubstring (buildCommand template repls
      { deviceCode := some dev, stickCode := stick,
        channel := some ch, suffix := some sfx }) 36 42 = dev ∧
    jsSubstring (buildCommand template repls
      { deviceCode := some dev, stickCode := stick,
        channel := some ch, suffix := some sfx }) 42 44 = sfx ∧
    buildCommand cmdUp []
      { deviceCode := some ("49ABCD"), stickCode := some ("6F1234") } =
      "0D01070100000000000000000000006F123449ABCD00" := by
  have hdevne : (dev == "") = false := by
    apply beq_eq_false_iff_ne.mpr
    intro h
    subst h
    exact absurd hdev6 (by decide)
  have hchne : (ch == "") = false := by
    apply beq_eq_false_iff_ne.mpr
    intro h
    subst h
    exact absurd hch2 (by decide)
  have hsfxne : (sfx == "") = false := by
    apply beq_eq_false_iff_ne.mpr
    intro h
    subst h
    exact absurd hsfx2 (by decide)
  have hstickRes6 : stickRes.data.length = 6 := by
    rcases hstick with ⟨_, _, hzero⟩ | ⟨_, h6, _⟩
    · subst hzero
      decide
    · exact h6
  have h0D : ("0D").data.length = 2 := by decide
  have hpadlen : paddingStr.data.length = 18 := by decide
  have hF : buildCommand template repls
      { deviceCode := some dev, stickCode := stick,
        channel := some ch, suffix := some sfx } =
      "0D" ++ ch ++
        jsSubstring (if (applyRepls template repls).data.length < 8 then
          jsPadEnd (applyRepls template repls) 8 '0'
          else applyRepls template repls) 0 8 ++
        paddingStr ++ stickRes ++ dev ++ sfx := by
    rcases hstick with ⟨hsn, hlz, hzero⟩ | ⟨hss, h6, hsU⟩
    · subst hsn
      subst hzero
      simp [buildCommand, jsOr, jsTruthy, hdevne, hchne, hsfxne, hlz, hdevU,
        hchU, hsfxU]
    · subst hss
      have hsne : (stickRes == "") = false := by
        apply beq_eq_false_iff_ne.mpr
        intro h
        subst h
        exact absurd h6 (by decide)
      simp [buildCommand, jsOr, jsTruthy, hdevne, hchne, hsfxne, hsne, hdevU,
        hchU, hsfxU, hsU]
  have hcb := commandBody_length (applyRepls template repls)
  have hFdata : (buildCommand template repls
      { deviceCode := some dev, stickCode := stick,
        channel := some ch, suffix := some sfx }).data =
      ("0D").data ++ ch.data ++
        (jsSubstring (if (applyRepls template repls).data.length < 8 then
          jsPadEnd (applyRepls template repls) 8 '0'
          else applyRepls template repls) 0 8).data ++
        paddingStr.data ++ stickRes.data ++ dev.data ++ sfx.data := by
    rw [hF]
    simp only [data_append]
  generalize hg : (jsSubstring (if (applyRepls template repls).data.length < 8
      then jsPadEnd (applyRepls template repls) 8 '0'
      else applyRepls template repls) 0 8).data = cbd at hFdata hcb
  refine ⟨?_, ?_, ?_, ?_, ?_, ?_, ?_, by decide⟩
  · rw [hFdata]
    simp only [List.length_append, h0D, hch2, hcb, hpadlen, hstickRes6, hdev6,
      hsfx2]
  · refine jsSubstring_of_append _ [] (("0D").data)
      (ch.data ++ (cbd ++ (paddingStr.data ++ (stickRes.data ++
        (dev.data ++ sfx.data))))) 0 2 ?_ (by decide)
      (by simp only [List.nil_append, Nat.zero_add, h0D])
    rw [hFdata]
    simp [List.append_assoc]
  · refine jsSubstring_of_append _ (("0D").data) ch.data
      (cbd ++ (paddingStr.data ++ (stickRes.data ++ (dev.data ++ sfx.data))))
      2 4 ?_ (by simp only [h0D]) (by simp only [hch2])
    rw [hFdata]
    simp [List.append_assoc]
  · refine jsSubstring_of_append _ (("0D").data ++ ch.data ++ cbd)
      paddingStr.data (stickRes.data ++ (dev.data ++ sfx.data)) 12 30 ?_
      (by simp only [List.length_append, h0D, hch2, hcb])
      (by simp only [hpadlen])
    rw [hFdata]
    simp [List.append_assoc]
  · refine jsSubstring_of_append _
      (("0D").data ++ ch.data ++ cbd ++ paddingStr.data)
      stickRes.data (dev.data ++ sfx.data) 30 36 ?_
      (by simp only [List.length_append, h0D, hch2, hcb, hpadlen])
      (by simp only [hstickRes6])
    rw [hFdata]
    simp [List.append_assoc]
  · refine jsSubstring_of_append _
      (("0D").data ++ ch.data ++ cbd ++ paddingStr.data ++ stickRes.data)
      dev.data sfx.data 36 42 ?_
      (by simp only [List.length_append, h0D, hch2, hcb, hpadlen, hstickRes6])
      (by simp only [hdev6])
    rw [hFdata]
    simp [List.append_assoc]
  · refine jsSubstring_of_append _
      (("0D").data ++ ch.data ++ cbd ++ paddingStr.data ++ stickRes.data ++
        dev.data)
      sfx.data [] 42 44 ?_
      (by simp only [List.length_append, h0D, hch2, hcb, hpadlen, hstickRes6,
        hdev6])
      (by simp only [hsfx2])
    rw [hFdata]
    simp [List.append_assoc]

/-- Witness for C5: the position-50 command frame for stick 6F1234 and
device 49ABCD carries the stick code at hex chars 30..35. -/
theorem C5_command_frame_layout_witness :
    jsSubstring (buildCommand cmdPosition [(("nn"), .num 50)]
      { deviceCode := some ("49ABCD"), stickCode := some ("6F1234"),
        channel := some ("01"), suffix := some ("00") }) 30 36 = "6F1234" :=
  (C5_command_frame_layout cmdPosition [(("nn"), .num 50)]
    "49ABCD" "01" "00" "6F1234" (some ("6F1234"))
    (by decide) (by decide) (by decide) (by decide) (by decide) (by decide)
    (Or.inr ⟨rfl, by decide, by decide⟩)).2.2.2.2.1

end Duofern

namespace Duofern

/-- A format-21 status frame whose position window holds raw value 0x7F. -/
def c10NegFrame : String := "0FFF0F21000000000000007F00000000000000000000"

/-- C10: for format-21 status frames the inverted fields (position,
sunPosition, ventilatingPosition; invert base 100) are reported as
100 minus the extracted raw value with no clamping to 0..100; the
extracted window is 7 bits wide (raw at most 127), and the concrete frame
with raw 0x7F in the position window parses to position = -27. -/
theorem C10_position_invert_no_clamp (frame : String)
    (hfmt : jsSubstring frame 6 8 = "21") :
    getField (parseStatus frame) ("position") =
      some (.n (100 - (((jsParseHex (jsSubstring frame 20 24)).getD 0)
        &&& 127 : Nat))) ∧
    getField (parseStatus frame) ("sunPosition") =
      some (.n (100 - (((jsParseHex (jsSubstring frame 18 22)).getD 0)
        &&& 127 : Nat))) ∧
    getField (parseStatus frame) ("ventilatingPosition") =
      some (.n (100 - (((jsParseHex (jsSubstring frame 10 14)).getD 0)
        &&& 127 : Nat))) ∧
    (((jsParseHex (jsSubstring frame 20 24)).getD 0) &&& 127 : Nat) ≤ 127 ∧
    getField (parseStatus c10NegFrame) ("position") = some (.n (-27)) := by
  have hg : lookupByStr statusGroups ("21") =
      some [100, 101, 102, 104, 105, 106, 111, 112, 113, 114, 50] := by
    decide
  have hmask : ∀ x : Nat, x &&& 127 = x % 128 := by
    intro x
    have h7 : (127 : Nat) = 2 ^ 7 - 1 := by norm_num
    rw [h7, Nat.and_pow_two_sub_one_eq_mod]
  refine ⟨?_, ?_, ?_, Nat.and_le_right, by decide⟩
  all_goals
    simp only [parseStatus]
    rw [hfmt, hg]
    simp [parseField, lookupByNat, lookupByStr, statusIds, statusMapping,
      startsWithScale, getField, jsIndex, hmask]

end Duofern

namespace Duofern

/-- Witness for C10 at the concrete raw-0x7F frame. -/
theorem C10_position_invert_no_clamp_witness :
    getField (parseStatus c10NegFrame) ("position") =
      some (.n (100 - (((jsParseHex (jsSubstring c10NegFrame 20 24)).getD 0)
        &&& 127 : Nat))) :=
  (C10_position_invert_no_clamp c10NegFrame (by decide)).1

end Duofern
